import Mathlib

/-!
Verification of the tab-selection and date-range-input state machines of the
blueprint repository, shallowly embedded from
`packages/core/src/components/tabs2/tabs.tsx` and
`packages/datetime/src/dateRangeInput.tsx`.
-/

/-! ## Tabs (tabs.tsx) -/

/-- Identifier of a tab (`TabId` is `string | number` in the source; a
countable identifier type suffices for the state machine). -/
abbrev TabId := Nat

/-- The props of one declared `<Tab>` child that the state machine reads:
its id and its disabled flag. -/
structure TabChild where
  id : TabId
  disabled : Bool
deriving DecidableEq

/-- A child element passed to `<Tabs>`: a `<Tab>` or any other element
(`isTab` distinguishes them in the source). -/
inductive Child where
  | tab (t : TabChild)
  | other
deriving DecidableEq

/-- `getTabChildren`: filters `this.props.children` to only the `<Tab>`s. -/
def getTabChildren (children : List Child) : List TabChild :=
  children.filterMap (fun c => match c with
    | Child.tab t => some t
    | Child.other => none)

/-- The component state of `Tabs` used by selection
(`indicatorWrapperStyle` is rendering-only and omitted). -/
structure TabsState where
  selectedTabId : Option TabId
deriving DecidableEq

/-- The `Tabs` constructor: with no `defaultSelectedTabId` it reads
`this.getTabChildren()[0].props.id`; with zero tab children that indexing
yields `undefined` and the `.props` access throws, which the embedding
renders as `none`. -/
def tabsConstruct (children : List Child) (defaultSelectedTabId : Option TabId) :
    Option TabsState :=
  match defaultSelectedTabId with
  | some tid => some { selectedTabId := some tid }
  | none =>
    match getTabChildren children with
    | [] => none
    | t :: _ => some { selectedTabId := some t.id }

/-- An observable callback invocation of the `Tabs` widget. -/
inductive TabsEvent where
  | change (selectedTabId : TabId) (prevSelectedTabId : Option TabId)
deriving DecidableEq

/-- `getTabClickHandler(selectedTabId)`: if the clicked id differs from the
current one it invokes `onChange(selectedTabId, prev)` and stores the new id;
otherwise it does nothing. -/
def tabClick (s : TabsState) (id : TabId) : TabsState × List TabsEvent :=
  if some id ≠ s.selectedTabId then
    ({ selectedTabId := some id }, [TabsEvent.change id s.selectedTabId])
  else
    (s, [])

/-- DOM keycode of the left arrow (`Keys.ARROW_LEFT`). -/
def ARROW_LEFT : Int := 37

/-- DOM keycode of the up arrow (`Keys.ARROW_UP`); the source computes the
direction as `e.which - Keys.ARROW_UP`. -/
def ARROW_UP : Int := 38

/-- DOM keycode of the right arrow (`Keys.ARROW_RIGHT`). -/
def ARROW_RIGHT : Int := 39

/-- The enabled tab titles, in order: the source filters the rendered
tab elements by the attribute aria-disabled equal to "false", which holds
exactly for the tab children whose `disabled` prop is false. -/
def enabledTabs (tabs : List TabChild) : List TabChild :=
  tabs.filter (fun t => !t.disabled)

/-- `handleKeyDown`: given the declared tabs, the index `focusedIndex` of the
focused element within the enabled tab titles (the source computes it by
`indexOf`; `none` models no tab focused) and the event keycode, returns the
tab title that receives focus, or `none` when focus does not move. -/
def handleKeyDown (tabs : List TabChild) (focused : Option Nat) (which : Int) :
    Option TabChild :=
  match focused with
  | none => none
  | some focusedIndex =>
    let enabled := enabledTabs tabs
    if focusedIndex < enabled.length ∧ (which = ARROW_LEFT ∨ which = ARROW_RIGHT) then
      let direction : Int := which - ARROW_UP
      let next : Int := ((focusedIndex : Int) + direction + enabled.length) % enabled.length
      enabled.get? next.toNat
    else
      none

example : tabsConstruct [Child.tab ⟨1, true⟩, Child.tab ⟨2, false⟩] none
    = some { selectedTabId := some 1 } := by decide

example : tabsConstruct [] none = none := by decide

example : handleKeyDown [⟨1, false⟩, ⟨2, true⟩, ⟨3, false⟩] (some 1) ARROW_RIGHT
    = some ⟨1, false⟩ := by decide

example : handleKeyDown [⟨1, false⟩, ⟨2, true⟩, ⟨3, false⟩] (some 0) ARROW_LEFT
    = some ⟨3, false⟩ := by decide

/-! ## Date model (dateRangeInput.tsx and its date library collaborator) -/

/-- A calendar date at day precision, as year, month, day. The format prop
defaults to a day-precision pattern, so day precision is the value space of
the widget. -/
structure GDate where
  y : Nat
  m : Nat
  d : Nat
deriving DecidableEq

/-- Chronological order on calendar dates: lexicographic on
(year, month, day). -/
def GDate.le (a b : GDate) : Bool :=
  a.y < b.y || (a.y = b.y && (a.m < b.m || (a.m = b.m && a.d ≤ b.d)))

/-- Gregorian leap-year rule. -/
def isLeapYear (y : Nat) : Bool :=
  (y % 4 = 0 && y % 100 ≠ 0) || y % 400 = 0

/-- Number of days in a month of the Gregorian calendar. -/
def daysInMonth (y m : Nat) : Nat :=
  if m = 2 then (if isLeapYear y then 29 else 28)
  else if m = 4 ∨ m = 6 ∨ m = 9 ∨ m = 11 then 30
  else 31

/-- Whether the triple denotes an actual calendar date. -/
def GDate.isValidDate (g : GDate) : Bool :=
  1 ≤ g.m && g.m ≤ 12 && 1 ≤ g.d && g.d ≤ daysInMonth g.y g.m

/-- Modelled from the spec: a moment.js value as used by the widget. The date
library distinguishes the null moment produced by passing null (the
"no date chosen" state, recognised by the dateUtils helper isMomentNull),
an invalid moment (unparseable text, or an invalid Date), and a valid
moment carrying a date. -/
inductive Moment where
  | nullM
  | invalidM
  | validM (g : GDate)
deriving DecidableEq

/-- Modelled from the spec: moment's isValid — true exactly for a moment
carrying an actual date (the null moment is also invalid). -/
def Moment.isValid : Moment → Bool
  | Moment.validM _ => true
  | _ => false

/-- Modelled from the spec: the dateUtils helper isMomentNull — true exactly
for the null moment ("no date chosen"). -/
def isMomentNull : Moment → Bool
  | Moment.nullM => true
  | _ => false

/-- Modelled from the spec: a JavaScript Date-or-null as carried by the
DateRange tuples of the public API: null ("no date"), the invalid-date
sentinel (the source writes it new Date(undefined)), or an actual date. -/
inductive JDate where
  | nullD
  | invalidD
  | dateD (g : GDate)
deriving DecidableEq

/-- Modelled from the spec: the dateUtils conversion from a moment to a Date
slot of a DateRange; per the onChange documentation in the source, a
boundary with no date is passed as null. -/
def fromMomentToDate : Moment → JDate
  | Moment.nullM => JDate.nullD
  | Moment.invalidM => JDate.invalidD
  | Moment.validM g => JDate.dateD g

/-- Modelled from the spec: the dateUtils conversion from a Date slot of a
DateRange to a moment (the source calls it through
fromDateRangeToMomentDateRange). -/
def fromDateToMoment : JDate → Moment
  | JDate.nullD => Moment.nullM
  | JDate.invalidD => Moment.invalidM
  | JDate.dateD g => Moment.validM g

/-- Modelled from the spec: fromDateRangeToMomentDateRange, lifted to the
possibly-absent value prop. -/
def fromDateRangeToMomentDateRange (r : Option (JDate × JDate)) :
    Option (Moment × Moment) :=
  r.map (fun p => (fromDateToMoment p.1, fromDateToMoment p.2))

/-- Modelled from the spec: fromMomentDateRangeToDateRange. -/
def fromMomentDateRangeToDateRange (r : Moment × Moment) : JDate × JDate :=
  (fromMomentToDate r.1, fromMomentToDate r.2)

/-- One end of the range (the enum DateRangeBoundary of the source). -/
inductive DateRangeBoundary where
  | START
  | END
deriving DecidableEq

/-- `getOtherBoundary`. -/
def getOtherBoundary : DateRangeBoundary → DateRangeBoundary
  | DateRangeBoundary.START => DateRangeBoundary.END
  | DateRangeBoundary.END => DateRangeBoundary.START

/-- The props of DateRangeInput read by the handlers. Parsing and formatting
under the format prop are delegated to the date library; they enter the
embedding as the fields `parse` (moment(text, format), which yields an
invalid moment or a valid one, never the null moment, for an actual string)
and `fmt` (momentDate.format(format) on a valid moment). -/
structure DRIProps where
  value : Option (JDate × JDate)
  defaultValue : Option (JDate × JDate)
  minDate : GDate
  maxDate : GDate
  invalidDateMessage : String
  outOfRangeMessage : String
  parse : String → Option GDate
  fmt : GDate → String

/-- The component state of DateRangeInput. In the source the focus flags and
input strings start undefined; undefined is falsy where the flags are read,
so the flags are Bool with initial false, and the input strings are
`Option String` with `none` for null/undefined. -/
structure DRIState where
  isOpen : Bool
  isStartInputFocused : Bool
  isEndInputFocused : Bool
  startInputString : Option String
  endInputString : Option String
  selectedStart : Moment
  selectedEnd : Moment

/-- The state slot `inputString` for a boundary. -/
def inputStringOf (s : DRIState) : DateRangeBoundary → Option String
  | DateRangeBoundary.START => s.startInputString
  | DateRangeBoundary.END => s.endInputString

/-- The state slot `isInputFocused` for a boundary. -/
def isFocusedOf (s : DRIState) : DateRangeBoundary → Bool
  | DateRangeBoundary.START => s.isStartInputFocused
  | DateRangeBoundary.END => s.isEndInputFocused

/-- The state slot `selectedValue` for a boundary. -/
def selectedOf (s : DRIState) : DateRangeBoundary → Moment
  | DateRangeBoundary.START => s.selectedStart
  | DateRangeBoundary.END => s.selectedEnd

/-- setState on the `inputString` key of a boundary. -/
def setInputString (s : DRIState) (b : DateRangeBoundary) (v : Option String) :
    DRIState :=
  match b with
  | DateRangeBoundary.START => { s with startInputString := v }
  | DateRangeBoundary.END => { s with endInputString := v }

/-- setState on the `isInputFocused` key of a boundary. -/
def setFocused (s : DRIState) (b : DateRangeBoundary) (v : Bool) : DRIState :=
  match b with
  | DateRangeBoundary.START => { s with isStartInputFocused := v }
  | DateRangeBoundary.END => { s with isEndInputFocused := v }

/-- setState on the `selectedValue` key of a boundary. -/
def setSelected (s : DRIState) (b : DateRangeBoundary) (v : Moment) : DRIState :=
  match b with
  | DateRangeBoundary.START => { s with selectedStart := v }
  | DateRangeBoundary.END => { s with selectedEnd := v }

/-- The `controlledValue` of a boundary: the matching slot of the value prop
converted to a moment, undefined when the widget is uncontrolled. -/
def controlledValueOf (p : DRIProps) (b : DateRangeBoundary) : Option Moment :=
  (fromDateRangeToMomentDateRange p.value).map
    (fun r => match b with
      | DateRangeBoundary.START => r.1
      | DateRangeBoundary.END => r.2)

/-- `isControlled`: the value prop is present. -/
def isControlled (p : DRIProps) : Bool :=
  p.value.isSome

/-- `dateStringToMoment`: moment(dateString, format). -/
def dateStringToMoment (p : DRIProps) (dateString : String) : Moment :=
  match p.parse dateString with
  | some g => Moment.validM g
  | none => Moment.invalidM

/-- `getFormattedDateString`: empty for the null moment, otherwise
momentDate.format(format); moment renders an invalid moment as the fixed
string Invalid date. -/
def getFormattedDateString (p : DRIProps) (momentDate : Moment) : String :=
  match momentDate with
  | Moment.nullM => ""
  | Moment.invalidM => "Invalid date"
  | Moment.validM g => p.fmt g

/-- Modelled from the spec: the dateUtils helper isMomentInRange — a
timestamp comparison against moment(minDate) and moment(maxDate), inclusive
on both ends; comparisons against an invalid or null moment are false. -/
def isMomentInRange (p : DRIProps) : Moment → Bool
  | Moment.validM g => GDate.le p.minDate g && GDate.le g p.maxDate
  | _ => false

/-- `isMomentValidAndInRange` (the dateUtils helper bound to the min/max
props): valid and within [minDate, maxDate]. -/
def isMomentValidAndInRange (p : DRIProps) (momentDate : Moment) : Bool :=
  momentDate.isValid && isMomentInRange p momentDate

/-- `getInitialRange`: the value prop, else the defaultValue prop, else the
pair of null moments. -/
def getInitialRange (p : DRIProps) : Moment × Moment :=
  match fromDateRangeToMomentDateRange p.value with
  | some r => r
  | none =>
    match fromDateRangeToMomentDateRange p.defaultValue with
    | some r => r
    | none => (Moment.nullM, Moment.nullM)

/-- The DateRangeInput constructor: isOpen false and the selected range from
`getInitialRange`; the remaining state fields start undefined. -/
def driConstruct (p : DRIProps) : DRIState :=
  { isOpen := false
    isStartInputFocused := false
    isEndInputFocused := false
    startInputString := none
    endInputString := none
    selectedStart := (getInitialRange p).1
    selectedEnd := (getInitialRange p).2 }

/-- An observable callback invocation of the DateRangeInput widget. -/
inductive DRIEvent where
  | onChange (selectedRange : JDate × JDate)
  | onError (errorRange : JDate × JDate)
deriving DecidableEq

/-- `getDateForErrorCallback`: an invalid (or null) moment becomes the
invalid-date sentinel new Date(undefined); a valid moment becomes its
date. -/
def getDateForErrorCallback (momentDate : Moment) : JDate :=
  if !momentDate.isValid then JDate.invalidD
  else fromMomentToDate momentDate

/-- `getRangeForErrorCallback`: the offending boundary carries the rejected
value, the other boundary carries its currently selected value, both pushed
through `getDateForErrorCallback`. -/
def getRangeForErrorCallback (s : DRIState) (errorValue : Moment)
    (errorBoundary : DateRangeBoundary) : JDate × JDate :=
  let otherValue := selectedOf s (getOtherBoundary errorBoundary)
  let errorDate := getDateForErrorCallback errorValue
  let otherDate := getDateForErrorCallback otherValue
  match errorBoundary with
  | DateRangeBoundary.START => (errorDate, otherDate)
  | DateRangeBoundary.END => (otherDate, errorDate)

/-- `handleInputFocus`: opens the popover, marks the boundary focused and
seeds its input string from the formatted selected value. -/
def handleInputFocus (p : DRIProps) (s : DRIState) (boundary : DateRangeBoundary) :
    DRIState × List DRIEvent :=
  let inputString := getFormattedDateString p (selectedOf s boundary)
  (setFocused (setInputString { s with isOpen := true } boundary (some inputString))
      boundary true,
    [])

/-- `handleInputBlur`: empty text collapses the boundary (uncontrolled) or
restores the controlled text; text that is not valid-and-in-range unfocuses
and, when uncontrolled, stores the rejected moment and invokes onError with
the error range; valid text merely unfocuses. -/
def handleInputBlur (p : DRIProps) (s : DRIState) (boundary : DateRangeBoundary) :
    DRIState × List DRIEvent :=
  let vInput := inputStringOf s boundary
  let maybeNextValue :=
    match vInput with
    | none => Moment.nullM
    | some str => dateStringToMoment p str
  let isValueControlled := isControlled p
  if vInput = none ∨ vInput = some "" then
    if isValueControlled then
      (setInputString (setFocused s boundary false) boundary
          (some (getFormattedDateString p
            ((controlledValueOf p boundary).getD Moment.nullM))),
        [])
    else
      (setInputString (setSelected (setFocused s boundary false) boundary
          Moment.nullM) boundary none,
        [])
  else if !isMomentValidAndInRange p maybeNextValue then
    if isValueControlled then
      (setFocused s boundary false, [])
    else
      (setSelected (setInputString (setFocused s boundary false) boundary none)
          boundary maybeNextValue,
        if isMomentValidAndInRange p maybeNextValue then
          []
        else
          [DRIEvent.onError (getRangeForErrorCallback s maybeNextValue boundary)])
  else
    (setFocused s boundary false, [])

/-- `handleInputChange`: empty text resets the boundary (uncontrolled) and
always reports onChange([null, null]); valid-and-in-range text stores it and
reports the updated range built from the other boundary's current selected
value; any other text only records the raw input string. -/
def handleInputChange (p : DRIProps) (s : DRIState) (boundary : DateRangeBoundary)
    (inputString : String) : DRIState × List DRIEvent :=
  let maybeNextValue := dateStringToMoment p inputString
  let isValueControlled := isControlled p
  if inputString = "" then
    (if isValueControlled then
        setInputString s boundary (some "")
      else
        setSelected (setInputString s boundary (some "")) boundary Moment.nullM,
      [DRIEvent.onChange (JDate.nullD, JDate.nullD)])
  else if isMomentValidAndInRange p maybeNextValue then
    let nextMomentDateRange : Moment × Moment :=
      match boundary with
      | DateRangeBoundary.START => (maybeNextValue, s.selectedEnd)
      | DateRangeBoundary.END => (s.selectedStart, maybeNextValue)
    (if isValueControlled then
        setInputString s boundary (some inputString)
      else
        setSelected (setInputString s boundary (some inputString)) boundary
          maybeNextValue,
      [DRIEvent.onChange (fromMomentDateRangeToDateRange nextMomentDateRange)])
  else
    (setInputString s boundary (some inputString), [])

/-- `getInputDisplayString`: the string rendered in a boundary's field —
empty for the null moment and the invalid-date message for an invalid
moment, in both focus states; otherwise the raw input string when focused,
and the out-of-range message or the formatted date when blurred. -/
def getInputDisplayString (p : DRIProps) (s : DRIState) (boundary : DateRangeBoundary) :
    Option String :=
  let selectedValue := selectedOf s boundary
  if isMomentNull selectedValue then some ""
  else if !selectedValue.isValid then some p.invalidDateMessage
  else if isFocusedOf s boundary then inputStringOf s boundary
  else if !isMomentInRange p selectedValue then some p.outOfRangeMessage
  else some (getFormattedDateString p selectedValue)

/-! ### The default format (the format prop defaults to a year-month-day
pattern with dashes)

moment.js itself is an external collaborator; its behaviour under the
default format is modelled here from the spec so that the round-trip
property can be stated concretely: formatting zero-pads year to four and
month/day to two digits with dash separators, and parsing accepts exactly
such strings that denote actual calendar dates. -/

/-- The character of a decimal digit. -/
def digitChar (n : Nat) : Char := Char.ofNat (48 + n)

/-- The dash separator of the default format. -/
def dashChar : Char := Char.ofNat 45

/-- The numeric value of a decimal-digit character, none otherwise. -/
def digitVal (c : Char) : Option Nat :=
  if 48 ≤ c.toNat ∧ c.toNat ≤ 57 then some (c.toNat - 48) else none

/-- Two-digit zero-padded rendering. -/
def pad2 (n : Nat) : List Char := [digitChar (n / 10 % 10), digitChar (n % 10)]

/-- Four-digit zero-padded rendering. -/
def pad4 (n : Nat) : List Char :=
  [digitChar (n / 1000 % 10), digitChar (n / 100 % 10),
   digitChar (n / 10 % 10), digitChar (n % 10)]

/-- Modelled from the spec: momentDate.format under the default format. -/
def formatYMD (g : GDate) : String :=
  String.mk (pad4 g.y ++ dashChar :: pad2 g.m ++ dashChar :: pad2 g.d)

/-- Modelled from the spec: moment(text, format) under the default format —
exactly ten characters, digits in the year/month/day positions, dashes in
between, denoting an actual calendar date. -/
def parseYMD (text : String) : Option GDate :=
  match text.data with
  | [y1, y2, y3, y4, s1, m1, m2, s2, d1, d2] =>
    if s1 = dashChar ∧ s2 = dashChar then
      match digitVal y1, digitVal y2, digitVal y3, digitVal y4,
          digitVal m1, digitVal m2, digitVal d1, digitVal d2 with
      | some a, some b, some c, some d, some e, some f, some u, some v =>
        let g : GDate :=
          { y := 1000 * a + 100 * b + 10 * c + d
            m := 10 * e + f
            d := 10 * u + v }
        if g.isValidDate then some g else none
      | _, _, _, _, _, _, _, _ => none
    else none
  | _ => none

/-- A props record under the default format, with the given range bounds and
value props; the messages are the defaults of the source
(defaultProps). -/
def defaultFormatProps (minDate maxDate : GDate)
    (value defaultValue : Option (JDate × JDate)) : DRIProps :=
  { value := value
    defaultValue := defaultValue
    minDate := minDate
    maxDate := maxDate
    invalidDateMessage := "Invalid date 2"
    outOfRangeMessage := "Out of range"
    parse := parseYMD
    fmt := formatYMD }

example : parseYMD (formatYMD ⟨2020, 6, 15⟩) = some ⟨2020, 6, 15⟩ := by decide

example : parseYMD "2020-13-01" = none := by decide

example : parseYMD "2020-02-29" = some ⟨2020, 2, 29⟩ := by decide

example : parseYMD "2021-02-29" = none := by decide

/-! ### Concrete fixtures (the scenario of the spec: default format,
minDate 2020-01-01, maxDate 2020-12-31), used by counterexamples and
witnesses -/

/-- A sample tab list with a disabled middle tab, used by concrete
witnesses. -/
def sampleTabs : List TabChild := [⟨1, false⟩, ⟨2, true⟩, ⟨3, false⟩]

/-- Scenario lower bound. -/
def cMin : GDate := ⟨2020, 1, 1⟩

/-- Scenario upper bound. -/
def cMax : GDate := ⟨2020, 12, 31⟩

/-- Scenario props, uncontrolled. -/
def pUncontrolled : DRIProps := defaultFormatProps cMin cMax none none

/-- Scenario props, controlled with an empty range as value. -/
def pControlled : DRIProps :=
  defaultFormatProps cMin cMax (some (JDate.nullD, JDate.nullD)) none

/-- A state with the start field focused and mid-edit and both boundaries
holding valid in-range dates. -/
def sampleState : DRIState :=
  { isOpen := true
    isStartInputFocused := true
    isEndInputFocused := false
    startInputString := some "2020-06-15"
    endInputString := none
    selectedStart := Moment.validM ⟨2020, 6, 15⟩
    selectedEnd := Moment.validM ⟨2020, 3, 1⟩ }

/-- A state with the start field focused holding the out-of-range text of
the spec scenario, the end boundary holding a valid date. -/
def sBlurState : DRIState :=
  { isOpen := true
    isStartInputFocused := true
    isEndInputFocused := false
    startInputString := some "2021-01-01"
    endInputString := none
    selectedStart := Moment.nullM
    selectedEnd := Moment.validM ⟨2020, 6, 15⟩ }

/-- A reachable state: construct uncontrolled with no defaults, focus the
start field, then type the single character a into it. -/
def sC7 : DRIState :=
  (handleInputChange pUncontrolled
    ((handleInputFocus pUncontrolled (driConstruct pUncontrolled)
      DateRangeBoundary.START).1)
    DateRangeBoundary.START "a").1

/-! ## Shared helper lemmas -/

@[simp] theorem setInputString_selectedStart (s : DRIState) (b : DateRangeBoundary)
    (v : Option String) : (setInputString s b v).selectedStart = s.selectedStart := by
  cases b <;> rfl

@[simp] theorem setInputString_selectedEnd (s : DRIState) (b : DateRangeBoundary)
    (v : Option String) : (setInputString s b v).selectedEnd = s.selectedEnd := by
  cases b <;> rfl

@[simp] theorem setInputString_isOpen (s : DRIState) (b : DateRangeBoundary)
    (v : Option String) : (setInputString s b v).isOpen = s.isOpen := by
  cases b <;> rfl

@[simp] theorem setFocused_selectedStart (s : DRIState) (b : DateRangeBoundary)
    (v : Bool) : (setFocused s b v).selectedStart = s.selectedStart := by
  cases b <;> rfl

@[simp] theorem setFocused_selectedEnd (s : DRIState) (b : DateRangeBoundary)
    (v : Bool) : (setFocused s b v).selectedEnd = s.selectedEnd := by
  cases b <;> rfl

@[simp] theorem setFocused_isOpen (s : DRIState) (b : DateRangeBoundary)
    (v : Bool) : (setFocused s b v).isOpen = s.isOpen := by
  cases b <;> rfl

@[simp] theorem setSelected_isOpen (s : DRIState) (b : DateRangeBoundary)
    (v : Moment) : (setSelected s b v).isOpen = s.isOpen := by
  cases b <;> rfl

theorem handleKeyDown_right (tabs : List TabChild) (i : Nat)
    (h : i < (enabledTabs tabs).length) :
    handleKeyDown tabs (some i) ARROW_RIGHT
      = (enabledTabs tabs).get? ((i + 1) % (enabledTabs tabs).length) := by
  have hcond : i < (enabledTabs tabs).length ∧
      (ARROW_RIGHT = ARROW_LEFT ∨ ARROW_RIGHT = ARROW_RIGHT) := ⟨h, Or.inr rfl⟩
  simp only [handleKeyDown, if_pos hcond]
  have h1 : ((i : Int) + (ARROW_RIGHT - ARROW_UP) + (enabledTabs tabs).length)
      = (((i + 1 + (enabledTabs tabs).length : Nat)) : Int) := by
    simp only [ARROW_RIGHT, ARROW_UP]; push_cast; ring
  rw [h1, ← Int.ofNat_emod, Int.toNat_natCast, Nat.add_mod_right]
  simp [h]

theorem handleKeyDown_left (tabs : List TabChild) (i : Nat)
    (h : i < (enabledTabs tabs).length) :
    handleKeyDown tabs (some i) ARROW_LEFT
      = (enabledTabs tabs).get?
          ((i + (enabledTabs tabs).length - 1) % (enabledTabs tabs).length) := by
  have hcond : i < (enabledTabs tabs).length ∧
      (ARROW_LEFT = ARROW_LEFT ∨ ARROW_LEFT = ARROW_RIGHT) := ⟨h, Or.inl rfl⟩
  simp only [handleKeyDown, if_pos hcond]
  have h1 : ((i : Int) + (ARROW_LEFT - ARROW_UP) + (enabledTabs tabs).length)
      = (((i + (enabledTabs tabs).length - 1 : Nat)) : Int) := by
    simp only [ARROW_LEFT, ARROW_UP]; omega
  rw [h1, ← Int.ofNat_emod, Int.toNat_natCast]
  simp [h]

theorem handleKeyDown_enabled (tabs : List TabChild) (i : Nat) :
    ∀ which t, handleKeyDown tabs (some i) which = some t → t.disabled = false := by
  intro which t ht
  simp only [handleKeyDown] at ht
  split at ht
  · have hmem : t ∈ enabledTabs tabs := List.get?_mem ht
    have := (List.mem_filter.mp hmem).2
    simpa using this
  · exact absurd ht (by simp)

theorem digitVal_digitChar (k : Nat) (h : k < 10) :
    digitVal (digitChar k) = some k := by
  interval_cases k <;> decide

theorem daysInMonth_le_31 (y m : Nat) : daysInMonth y m ≤ 31 := by
  unfold daysInMonth
  split
  · split <;> omega
  · split <;> omega

theorem parseYMD_formatYMD (g : GDate) (hy : g.y < 10000)
    (hv : g.isValidDate = true) : parseYMD (formatYMD g) = some g := by
  obtain ⟨y, m, d⟩ := g
  have hvv := hv
  simp only [GDate.isValidDate, Bool.and_eq_true, decide_eq_true_eq] at hvv
  obtain ⟨⟨⟨h1, h2⟩, h3⟩, h4⟩ := hvv
  have hd31 : d ≤ 31 := le_trans h4 (daysInMonth_le_31 y m)
  simp only [formatYMD, pad4, pad2, List.cons_append, List.nil_append] at *
  simp only [parseYMD]
  rw [digitVal_digitChar _ (by omega), digitVal_digitChar _ (by omega),
    digitVal_digitChar _ (by omega), digitVal_digitChar _ (by omega),
    digitVal_digitChar _ (by omega), digitVal_digitChar _ (by omega),
    digitVal_digitChar _ (by omega), digitVal_digitChar _ (by omega)]
  have hy2 : 1000 * (y / 1000 % 10) + 100 * (y / 100 % 10)
      + 10 * (y / 10 % 10) + y % 10 = y := by
    omega
  have hm2 : 10 * (m / 10 % 10) + m % 10 = m := by omega
  have hd2 : 10 * (d / 10 % 10) + d % 10 = d := by omega
  simp only [hy2, hm2, hd2, hv, if_true]
  simp [hv]

/-! ## Claims -/

/-- C3 counterexample: with a disabled first tab and an enabled second tab
and no defaultSelectedTabId, the constructor selects the id of the first
declared tab (1) although the first enabled tab has id 2, so the claim that
selectedTabId defaults to the first enabled tab's id is false. -/
theorem C3_counterexample :
    tabsConstruct [Child.tab ⟨1, true⟩, Child.tab ⟨2, false⟩] none
      = some { selectedTabId := some 1 } ∧
    enabledTabs (getTabChildren [Child.tab ⟨1, true⟩, Child.tab ⟨2, false⟩])
      = [⟨2, false⟩] ∧
    (1 : TabId) ≠ 2 := by decide

/-- C3 (amended): constructing the widget without a defaultSelectedTabId
sets selectedTabId to the id of the first declared Tab child, whether or
not that tab is disabled. -/
theorem C3_first_declared_tab (children : List Child) (t : TabChild)
    (ts : List TabChild) (h : getTabChildren children = t :: ts) :
    tabsConstruct children none = some { selectedTabId := some t.id } := by
  simp [tabsConstruct, h]

/-- Witness for C3 (amended) at a concrete child list. -/
theorem C3_first_declared_tab_witness :
    getTabChildren [Child.tab ⟨1, true⟩, Child.tab ⟨2, false⟩]
      = TabChild.mk 1 true :: [TabChild.mk 2 false] ∧
    tabsConstruct [Child.tab ⟨1, true⟩, Child.tab ⟨2, false⟩] none
      = some { selectedTabId := some (TabChild.mk 1 true).id } :=
  ⟨by decide,
    C3_first_declared_tab [Child.tab ⟨1, true⟩, Child.tab ⟨2, false⟩]
      (TabChild.mk 1 true) [TabChild.mk 2 false] (by decide)⟩

/-- C4: among the enabled tabs, a right-arrow event moves focus from index i
to (i+1) mod N and a left-arrow event to (i-1+N) mod N; in particular focus
wraps from the last enabled tab to the first and conversely, and any tab
that receives focus from the handler is enabled. -/
theorem C4_keyboard_navigation_wraps (tabs : List TabChild) (i : Nat)
    (h : i < (enabledTabs tabs).length) :
    handleKeyDown tabs (some i) ARROW_RIGHT
      = (enabledTabs tabs).get? ((i + 1) % (enabledTabs tabs).length) ∧
    handleKeyDown tabs (some i) ARROW_LEFT
      = (enabledTabs tabs).get?
          ((i + (enabledTabs tabs).length - 1) % (enabledTabs tabs).length) ∧
    (i = (enabledTabs tabs).length - 1 →
      handleKeyDown tabs (some i) ARROW_RIGHT = (enabledTabs tabs).get? 0) ∧
    (i = 0 →
      handleKeyDown tabs (some i) ARROW_LEFT
        = (enabledTabs tabs).get? ((enabledTabs tabs).length - 1)) ∧
    (∀ which t, handleKeyDown tabs (some i) which = some t → t.disabled = false) := by
  refine ⟨handleKeyDown_right tabs i h, handleKeyDown_left tabs i h, ?_, ?_,
    handleKeyDown_enabled tabs i⟩
  · intro hi
    rw [handleKeyDown_right tabs i h]
    have hmod : (i + 1) % (enabledTabs tabs).length = 0 := by
      have hlen : i + 1 = (enabledTabs tabs).length := by omega
      rw [hlen, Nat.mod_self]
    rw [hmod]
  · intro hi
    rw [handleKeyDown_left tabs i h]
    have hmod : (i + (enabledTabs tabs).length - 1) % (enabledTabs tabs).length
        = (enabledTabs tabs).length - 1 := by
      have h2 : i + (enabledTabs tabs).length - 1 = (enabledTabs tabs).length - 1 := by
        omega
      rw [h2]
      exact Nat.mod_eq_of_lt (by omega)
    rw [hmod]

/-- Witness for C4 at a concrete tab list with a disabled middle tab. -/
theorem C4_keyboard_navigation_wraps_witness :
    1 < (enabledTabs sampleTabs).length ∧
    handleKeyDown sampleTabs (some 1) ARROW_RIGHT
      = (enabledTabs sampleTabs).get? ((1 + 1) % (enabledTabs sampleTabs).length) :=
  ⟨by decide, (C4_keyboard_navigation_wraps sampleTabs 1 (by decide)).1⟩

/-- C5: clicking the already-selected tab id changes no state and reports
nothing; clicking a different id stores it and reports
onChange(id, previousId) exactly once; two consecutive clicks of the same
id report onChange at most once. -/
theorem C5_select_tab_idempotent (s : TabsState) (id : TabId) :
    (s.selectedTabId = some id → tabClick s id = (s, [])) ∧
    (s.selectedTabId ≠ some id →
      tabClick s id
        = ({ selectedTabId := some id }, [TabsEvent.change id s.selectedTabId])) ∧
    ((tabClick s id).2 ++ (tabClick (tabClick s id).1 id).2).length ≤ 1 := by
  refine ⟨?_, ?_, ?_⟩
  · intro hs
    simp [tabClick, hs]
  · intro hs
    unfold tabClick
    rw [if_pos (fun hcon => hs hcon.symm)]
  · by_cases hs : some id = s.selectedTabId
    · simp [tabClick, hs]
    · simp [tabClick, hs]

/-- Witness for C5 at concrete states. -/
theorem C5_select_tab_idempotent_witness :
    tabClick { selectedTabId := some 1 } 1 = ({ selectedTabId := some 1 }, []) ∧
    tabClick { selectedTabId := some 2 } 1
      = ({ selectedTabId := some 1 }, [TabsEvent.change 1 (some 2)]) :=
  ⟨(C5_select_tab_idempotent { selectedTabId := some 1 } 1).1 rfl,
    (C5_select_tab_idempotent { selectedTabId := some 2 } 1).2.1 (by decide)⟩

/-- C8 counterexample: constructing the Tabs widget with zero declared Tab
children and no defaultSelectedTabId indexes an empty array and dereferences
undefined, modelled as none — the operation is not total, so the claim that
every public operation never throws is false. -/
theorem C8_counterexample : tabsConstruct [] none = none := by decide

/-- C8 (amended): the Tabs constructor succeeds exactly when a
defaultSelectedTabId is supplied or at least one Tab child is declared; all
other modelled operations are total functions of their inputs. -/
theorem C8_construct_total_iff (children : List Child) (d : Option TabId) :
    (tabsConstruct children d).isSome ↔ d.isSome ∨ getTabChildren children ≠ [] := by
  cases d with
  | some tid => simp [tabsConstruct]
  | none =>
    cases hg : getTabChildren children with
    | nil => simp [tabsConstruct, hg]
    | cons t ts => simp [tabsConstruct, hg]

/-- Witness for C8 (amended) at a concrete child list. -/
theorem C8_construct_total_iff_witness :
    (tabsConstruct [Child.tab ⟨1, false⟩] none).isSome :=
  (C8_construct_total_iff [Child.tab ⟨1, false⟩] none).mpr (Or.inr (by decide))

/-- C2 counterexample: with the start field focused and the end boundary
holding 2020-03-01, clearing the start field reports
onChange([null, null]), not onChange([null, 2020-03-01]) as the claim
states. -/
theorem C2_counterexample :
    sampleState.isStartInputFocused = true ∧
    sampleState.selectedEnd = Moment.validM ⟨2020, 3, 1⟩ ∧
    (handleInputChange pUncontrolled sampleState DateRangeBoundary.START "").2
      = [DRIEvent.onChange (JDate.nullD, JDate.nullD)] ∧
    ¬ (JDate.nullD = JDate.dateD ⟨2020, 3, 1⟩) := by decide

/-- C2 (amended): changing the start input's text to the empty string
immediately reports onChange([null, null]), whatever value the end boundary
currently holds. -/
theorem C2_clear_start_change (p : DRIProps) (s : DRIState)
    (hfoc : s.isStartInputFocused = true) :
    (handleInputChange p s DateRangeBoundary.START "").2
      = [DRIEvent.onChange (JDate.nullD, JDate.nullD)] := by
  simp [handleInputChange]

/-- Witness for C2 (amended) at the concrete sample state. -/
theorem C2_clear_start_change_witness :
    sampleState.isStartInputFocused = true ∧
    (handleInputChange pUncontrolled sampleState DateRangeBoundary.START "").2
      = [DRIEvent.onChange (JDate.nullD, JDate.nullD)] :=
  ⟨by decide, C2_clear_start_change pUncontrolled sampleState (by decide)⟩

/-- C6: a non-empty change whose text parses to an in-range date reports
onChange with the new date at the changed boundary and the other boundary's
current selected value; a non-empty change whose text does not parse to an
in-range date reports nothing and only records the raw input string. -/
theorem C6_change_live_validation (p : DRIProps) (s : DRIState)
    (b : DateRangeBoundary) (t : String) (hne : ¬ (t = "")) :
    (∀ g, dateStringToMoment p t = Moment.validM g →
      isMomentInRange p (Moment.validM g) = true →
      (handleInputChange p s b t).2
        = [DRIEvent.onChange
            (match b with
             | DateRangeBoundary.START => (JDate.dateD g, fromMomentToDate s.selectedEnd)
             | DateRangeBoundary.END => (fromMomentToDate s.selectedStart, JDate.dateD g))]) ∧
    (isMomentValidAndInRange p (dateStringToMoment p t) = false →
      (handleInputChange p s b t).2 = [] ∧
      (handleInputChange p s b t).1 = setInputString s b (some t)) := by
  constructor
  · intro g hg hir
    have hval : isMomentValidAndInRange p (Moment.validM g) = true := by
      simp [isMomentValidAndInRange, Moment.isValid, hir]
    cases b <;>
      simp [handleInputChange, hne, hval, hg, fromMomentDateRangeToDateRange,
        fromMomentToDate]
  · intro hinv
    simp [handleInputChange, hne, hinv]

/-- Witness for C6 at the spec scenario: typing 2020-06-15 into the start
field fires onChange with that date and the current end value. -/
theorem C6_change_live_validation_witness :
    ¬ ("2020-06-15" = "") ∧
    dateStringToMoment pUncontrolled "2020-06-15" = Moment.validM ⟨2020, 6, 15⟩ ∧
    isMomentInRange pUncontrolled (Moment.validM ⟨2020, 6, 15⟩) = true ∧
    (handleInputChange pUncontrolled sampleState DateRangeBoundary.START
        "2020-06-15").2
      = [DRIEvent.onChange (JDate.dateD ⟨2020, 6, 15⟩, JDate.dateD ⟨2020, 3, 1⟩)] :=
  ⟨by decide, by decide, by decide,
    (C6_change_live_validation pUncontrolled sampleState DateRangeBoundary.START
      "2020-06-15" (by decide)).1 ⟨2020, 6, 15⟩ (by decide) (by decide)⟩

/-- C1 counterexample: in controlled mode, blurring the start field holding
the out-of-range text 2021-01-01 unfocuses the field and reports nothing —
onError is not invoked at all — so the claim that the error is reported in
both controlled and uncontrolled mode is false. -/
theorem C1_counterexample :
    isControlled pControlled = true ∧
    sBlurState.startInputString = some "2021-01-01" ∧
    isMomentValidAndInRange pControlled
        (dateStringToMoment pControlled "2021-01-01") = false ∧
    (handleInputBlur pControlled sBlurState DateRangeBoundary.START).2 = [] := by
  decide

/-- C1 (amended): blurring a boundary whose text is non-empty and not
valid-and-in-range reports, in uncontrolled mode, exactly one onError whose
offending entry is the parsed-but-rejected date (or the invalid-date
sentinel when unparseable) and whose other entry is the other boundary's
selected date when valid (the sentinel otherwise), and reports no onChange;
in controlled mode it reports nothing. -/
theorem C1_blur_error (p : DRIProps) (s : DRIState) (b : DateRangeBoundary)
    (t : String) (hin : inputStringOf s b = some t) (hne : ¬ (t = ""))
    (hinv : isMomentValidAndInRange p (dateStringToMoment p t) = false) :
    (isControlled p = false →
      (handleInputBlur p s b).2
        = [DRIEvent.onError
            (match b with
             | DateRangeBoundary.START =>
               ((match dateStringToMoment p t with
                 | Moment.validM g => JDate.dateD g
                 | _ => JDate.invalidD),
                (match s.selectedEnd with
                 | Moment.validM g => JDate.dateD g
                 | _ => JDate.invalidD))
             | DateRangeBoundary.END =>
               ((match s.selectedStart with
                 | Moment.validM g => JDate.dateD g
                 | _ => JDate.invalidD),
                (match dateStringToMoment p t with
                 | Moment.validM g => JDate.dateD g
                 | _ => JDate.invalidD)))]) ∧
    (isControlled p = true → (handleInputBlur p s b).2 = []) := by
  constructor
  · intro hc
    cases b <;>
      cases hmv : dateStringToMoment p t <;>
        cases hos : s.selectedStart <;>
          cases hoe : s.selectedEnd <;>
            simp_all [handleInputBlur, getRangeForErrorCallback,
              getDateForErrorCallback, getOtherBoundary, selectedOf,
              fromMomentToDate, Moment.isValid, hin, hne, hc]
  · intro hc
    simp [handleInputBlur, hin, hne, hinv, hc]

/-- Witness for C1 (amended) at the spec scenario: blurring the start field
holding 2021-01-01 in uncontrolled mode fires onError with the rejected
date and the current end date. -/
theorem C1_blur_error_witness :
    isControlled pUncontrolled = false ∧
    (handleInputBlur pUncontrolled sBlurState DateRangeBoundary.START).2
      = [DRIEvent.onError
          (JDate.dateD ⟨2021, 1, 1⟩, JDate.dateD ⟨2020, 6, 15⟩)] :=
  ⟨by decide,
    (C1_blur_error pUncontrolled sBlurState DateRangeBoundary.START "2021-01-01"
      (by decide) (by decide) (by decide)).1 (by decide)⟩

/-- C10: in controlled mode, the change and blur handlers preserve
selectedStart, selectedEnd and isOpen — only input strings and focus flags
change. -/
theorem C10_controlled_frame (p : DRIProps) (s : DRIState) (b : DateRangeBoundary)
    (t : String) (hc : isControlled p = true) :
    (handleInputChange p s b t).1.selectedStart = s.selectedStart ∧
    (handleInputChange p s b t).1.selectedEnd = s.selectedEnd ∧
    (handleInputChange p s b t).1.isOpen = s.isOpen ∧
    (handleInputBlur p s b).1.selectedStart = s.selectedStart ∧
    (handleInputBlur p s b).1.selectedEnd = s.selectedEnd ∧
    (handleInputBlur p s b).1.isOpen = s.isOpen := by
  unfold handleInputChange handleInputBlur
  split_ifs <;> simp_all <;> split_ifs <;> simp_all

/-- Witness for C10 at the controlled scenario props. -/
theorem C10_controlled_frame_witness :
    isControlled pControlled = true ∧
    (handleInputChange pControlled sampleState DateRangeBoundary.START "x").1.selectedStart
      = sampleState.selectedStart :=
  ⟨by decide,
    (C10_controlled_frame pControlled sampleState DateRangeBoundary.START "x"
      (by decide)).1⟩

/-- C7 counterexample: in the reachable state sC7 the start field is focused
and its raw input string is the typed text a, yet the displayed string is
the empty string (the selected value is still the null moment, which the
display logic checks before the focus flag), so the claim that a focused
field always displays the raw typed string is false. -/
theorem C7_counterexample :
    sC7.isStartInputFocused = true ∧
    sC7.startInputString = some "a" ∧
    getInputDisplayString pUncontrolled sC7 DateRangeBoundary.START = some "" ∧
    ¬ (some "" = some "a") := by decide

/-- C7 (amended): when the field is not focused the display is the formatted
rendering of the selected value (empty for the null moment, the invalid-date
message for an invalid one, the out-of-range message or the formatted date
for a valid one); when the field is focused the display is the raw input
string only if the selected value is a valid date, the empty string when it
is the null moment, and the invalid-date message when it is invalid. -/
theorem C7_display_invariant (p : DRIProps) (s : DRIState) (b : DateRangeBoundary) :
    (isFocusedOf s b = false →
      getInputDisplayString p s b
        = (match selectedOf s b with
           | Moment.nullM => some ""
           | Moment.invalidM => some p.invalidDateMessage
           | Moment.validM g =>
             if isMomentInRange p (Moment.validM g) then some (p.fmt g)
             else some p.outOfRangeMessage)) ∧
    (isFocusedOf s b = true →
      getInputDisplayString p s b
        = (match selectedOf s b with
           | Moment.nullM => some ""
           | Moment.invalidM => some p.invalidDateMessage
           | Moment.validM _ => inputStringOf s b)) := by
  constructor <;> intro hf <;> cases hsv : selectedOf s b with
  | nullM =>
    simp [getInputDisplayString, hsv, isMomentNull]
  | invalidM =>
    simp [getInputDisplayString, hsv, isMomentNull, Moment.isValid]
  | validM g =>
    by_cases hir : isMomentInRange p (Moment.validM g) <;>
      simp [getInputDisplayString, hsv, isMomentNull, Moment.isValid, hf, hir,
        getFormattedDateString]

/-- Witness for C7 (amended) at the freshly constructed state, whose start
field is unfocused with no selected value and displays the empty string. -/
theorem C7_display_invariant_witness :
    isFocusedOf (driConstruct pUncontrolled) DateRangeBoundary.START = false ∧
    getInputDisplayString pUncontrolled (driConstruct pUncontrolled)
        DateRangeBoundary.START = some "" :=
  ⟨by decide,
    (C7_display_invariant pUncontrolled (driConstruct pUncontrolled)
      DateRangeBoundary.START).1 (by decide)⟩

/-- C9: under the default format, formatting a valid in-range date with the
configured format and re-parsing the result yields the original date (day
precision is the whole value space since the format omits time fields). -/
theorem C9_format_parse_roundtrip (minD maxD : GDate) (g : GDate)
    (hy : g.y < 10000) (hv : g.isValidDate = true)
    (hr : isMomentValidAndInRange (defaultFormatProps minD maxD none none)
        (Moment.validM g) = true) :
    dateStringToMoment (defaultFormatProps minD maxD none none)
        (getFormattedDateString (defaultFormatProps minD maxD none none)
          (Moment.validM g))
      = Moment.validM g := by
  simp [dateStringToMoment, getFormattedDateString, defaultFormatProps,
    parseYMD_formatYMD g hy hv]

/-- Witness for C9 at the spec scenario date 2020-06-15 within
[2020-01-01, 2020-12-31]. -/
theorem C9_format_parse_roundtrip_witness :
    (GDate.mk 2020 6 15).isValidDate = true ∧
    isMomentValidAndInRange (defaultFormatProps cMin cMax none none)
        (Moment.validM ⟨2020, 6, 15⟩) = true ∧
    dateStringToMoment (defaultFormatProps cMin cMax none none)
        (getFormattedDateString (defaultFormatProps cMin cMax none none)
          (Moment.validM ⟨2020, 6, 15⟩))
      = Moment.validM ⟨2020, 6, 15⟩ :=
  ⟨by decide, by decide,
    C9_format_parse_roundtrip cMin cMax ⟨2020, 6, 15⟩ (by decide) (by decide)
      (by decide)⟩
